import Mathlib

/-!
Verification of the MPIF parser/serializer (`src/utils/mpifParser.ts`, class
`MPIFParser`) of the MPIF-GUI repository, against its natural-language
specification.

Shallow embedding conventions:
* JavaScript strings are Lean `String`s.  The JS string primitives used by the
  source (`split` on a one-character separator, `trim`, `startsWith`,
  `includes`, `replace(/'/g,'')`) are re-implemented below by structural
  recursion over `String.data`, so that every definition evaluates inside the
  kernel (`String.splitOn`/`String.trim` from core do not reduce).
* JavaScript numbers are modelled as integers: the data files carry plain
  decimal numerals and every numeric claim checked here is structural (which
  points survive, how many records, emitted counts), never about fractional
  or floating-point behaviour.  `parseFloat`/`parseInt` are modelled as
  `Option Int` (`none` = `NaN`) parsing an optional sign followed by a digit
  run, mirroring their prefix-parsing semantics on such numerals.
* TypeScript `T | undefined` is `Option T`; JS truthiness (`x || d`,
  `if (x)`) is modelled per type (`undefined`, `NaN`, `0`, `''` are falsy).
* The `any` records produced by `parseLoopData` and consumed by `stringify`
  are association lists from field name to an optional cell value.
-/

namespace MPIF

/-! ## JS string primitives (modelled over `String.data`) -/

/-- Does the character list `l` start with `p`? -/
def chStarts : List Char → List Char → Bool
  | _, [] => true
  | [], _ :: _ => false
  | a :: as, b :: bs => a = b && chStarts as bs

/-- Does the character list `l` contain `p` as a contiguous sublist? -/
def chContains : List Char → List Char → Bool
  | [], p => p.isEmpty
  | a :: as, p => chStarts (a :: as) p || chContains as p

/-- JS `s.startsWith(p)`. -/
def strStarts (s p : String) : Bool := chStarts s.data p.data

/-- JS `s.includes(p)`. -/
def jsIncludes (s p : String) : Bool := chContains s.data p.data

/-- Auxiliary for `jsSplit`: accumulate the current chunk (reversed). -/
def splitChAux (sep : Char) : List Char → List Char → List String
  | [], acc => [String.mk acc.reverse]
  | c :: cs, acc =>
    if c = sep then String.mk acc.reverse :: splitChAux sep cs []
    else splitChAux sep cs (c :: acc)

/-- JS `s.split(sep)` for a one-character separator (the source only splits
on a newline or on a tab). -/
def jsSplit (sep : Char) (s : String) : List String := splitChAux sep s.data []

/-- JS `s.trim()` (drop leading and trailing whitespace). -/
def jsTrim (s : String) : String :=
  String.mk (((s.data.dropWhile Char.isWhitespace).reverse.dropWhile
    Char.isWhitespace).reverse)

/-- The apostrophe character used by the quoting convention. -/
def quoteCh : Char := Char.ofNat 39

/-- JS `s.replace(/'/g, '')`: remove every apostrophe. -/
def removeQuotes (s : String) : String := String.mk (s.data.filter (· ≠ quoteCh))

/-- JS `s.length > 5 …` style char count; `String.mk` keeps this reducible. -/
def strLen (s : String) : Nat := s.data.length

/-- JS `s.slice(5)` / regex capture after a five-character literal. -/
def strDrop (s : String) (n : Nat) : String := String.mk (s.data.drop n)

/-- JS string-typed `a || d` (`undefined` and the empty string are falsy). -/
def jsOr (o : Option String) (d : String) : String :=
  match o with
  | none => d
  | some s => if s = "" then d else s

/-- JS truthiness of a `string | undefined` value. -/
def jsTruthyS (o : Option String) : Bool :=
  match o with
  | none => false
  | some s => s ≠ ""

/-- JS template interpolation of a `string | undefined` value. -/
def renderOptS (o : Option String) : String :=
  match o with
  | none => "undefined"
  | some s => s

/-! ## JS numeric primitives -/

/-- Digit run to a natural number. -/
def digitsVal (ds : List Char) : Nat :=
  ds.foldl (fun a c => a * 10 + (c.toNat - 48)) 0

/-- JS `parseFloat` (and `parseInt`) restricted to the integral numerals this
format carries: skip leading whitespace, read an optional sign and a digit
run, ignore the rest; `none` models `NaN`. -/
def parseFloatM (s : String) : Option Int :=
  let cs := s.data.dropWhile Char.isWhitespace
  let (neg, cs') :=
    match cs with
    | c :: rest =>
      if c = '-' then (true, rest) else if c = '+' then (false, rest)
      else (false, cs)
    | [] => (false, ([] : List Char))
  let ds := cs'.takeWhile Char.isDigit
  if ds.isEmpty then none
  else some (if neg then -(digitsVal ds : Int) else (digitsVal ds : Int))

/-- JS `parseInt` coincides with `parseFloat` on the integral numerals the
format carries. -/
def parseIntM (s : String) : Option Int := parseFloatM s

/-- JS numeric `x || undefined` (`NaN` and `0` are falsy). -/
def numFalsy (o : Option Int) : Option Int :=
  match o with
  | some 0 => none
  | none => none
  | some n => some n

/-- JS template interpolation of a required `number` field whose only
non-numeric value is `NaN` (modelled by `none`). -/
def renderNumNaN (o : Option Int) : String :=
  match o with
  | none => "NaN"
  | some n => toString n

/-- JS numeric `x || ''` in a template (`undefined`, `NaN` and `0` render
empty). -/
def numOrEmpty (o : Option Int) : String :=
  match o with
  | none => ""
  | some 0 => ""
  | some n => toString n

/-- JS `if (x) { emit(x) }` for a numeric optional (`0`/`NaN`/`undefined`
skip the emission). -/
def emitIfNum (o : Option Int) (f : Int → String) : String :=
  match o with
  | none => ""
  | some n => if n = 0 then "" else f n

/-! ## Data model (`src/types/mpif.ts`)

TypeScript enum-like unions are plain `String`s; optional fields are
`Option`s.  Required `number` fields that the parser fills with a raw
`parseFloat` result (which may be `NaN`) are `Option Int` with `none` =
`NaN`; optional number fields are `Option Int` with `none` = `undefined`
(for those the parser never stores `NaN`, see the field-by-field comments).
The type-conditional `SynthesisGeneral` extras (microwave power, etc.) are
omitted: neither `parse` nor `stringify` ever reads or writes them. -/

structure MPIFMetadata where
  dataName : String
  creationDate : String
  generatorVersion : String
  publicationDOI : Option String
  procedureStatus : String
  deriving DecidableEq, Repr

structure AuthorDetails where
  name : String
  email : String
  orcid : String
  address : Option String
  phone : Option String
  deriving DecidableEq, Repr

structure ProductInfo where
  type : String
  casNumber : Option String
  ccdcNumber : Option String
  commonName : String
  systematicName : Option String
  formula : Option String
  formulaWeight : Option Int
  state : String
  color : String
  handlingAtmosphere : String
  handlingNote : Option String
  deriving DecidableEq, Repr

structure SynthesisGeneral where
  performedDate : String
  labTemperature : Option Int
  labHumidity : Option Int
  reactionType : String
  reactionTemperature : Option Int
  temperatureController : String
  reactionTime : Option Int
  reactionTimeUnit : String
  reactionAtmosphere : String
  reactionContainer : String
  reactionNote : Option String
  productAmount : Option Int
  productAmountUnit : String
  productYield : Option Int
  scale : String
  safetyNote : Option String
  deriving DecidableEq, Repr

/-- A cell of a repeated-record (`loop_`) item: a number or a string. -/
inductive CellVal where
  | num : Int → CellVal
  | str : String → CellVal
  deriving DecidableEq, Repr

/-- The `any` records built by `parseLoopData`: field name to optional cell. -/
abbrev LoopItem := List (String × Option CellVal)

structure SynthesisDetails where
  substrates : List LoopItem
  solvents : List LoopItem
  vessels : List LoopItem
  hardware : List LoopItem
  steps : List LoopItem
  procedureFull : Option String
  deriving DecidableEq, Repr

structure PXRDData where
  source : Option String
  wavelength : Option Int
  data : List (Int × Int)
  deriving DecidableEq, Repr

structure TGAData where
  data : List (Int × Int)
  deriving DecidableEq, Repr

structure AdsUnits where
  temperature : Option String
  pressure : Option String
  mass : Option String
  loading : Option String
  deriving DecidableEq, Repr

structure AdsorptionData where
  experimentalTemperature : Option Int
  experimentalMethod : Option String
  sampleMass : Option Int
  sampleId : Option String
  materialId : Option String
  sampleInfo : Option String
  units : AdsUnits
  data : List (Int × Int × Int)
  deriving DecidableEq, Repr

structure DesorptionData where
  data : List (Int × Int × Int)
  deriving DecidableEq, Repr

structure Characterization where
  pxrd : Option PXRDData
  tga : Option TGAData
  adsorption : Option AdsorptionData
  desorption : Option DesorptionData
  aif : Option String
  deriving DecidableEq, Repr

structure MPIFData where
  metadata : MPIFMetadata
  authorDetails : AuthorDetails
  productInfo : ProductInfo
  synthesisGeneral : SynthesisGeneral
  synthesisDetails : SynthesisDetails
  characterization : Characterization
  deriving DecidableEq, Repr

/-! ## Decoder (`MPIFParser.parse` and its private helpers)

`parse` splits the input on newlines and trims every line
(`content.split('\n').map(line => line.trim())`); every helper below takes
that trimmed line list, standing for `this.lines`. -/

/-- The trimmed line list `this.lines` built at the top of `parse`. -/
def linesOf (content : String) : List String :=
  (jsSplit '\n' content).map jsTrim

/-- `extractValue`: first line starting with `key`, split on tab, field 1. -/
def extractValue (lines : List String) (key : String) : Option String :=
  match lines.find? (fun l => strStarts l key) with
  | none => none
  | some l => (jsSplit '\t' l).get? 1

/-- The regex `^data_(.+)$` applied to one (trimmed) line. -/
def matchDataLine (l : String) : Option String :=
  if strStarts l "data_" ∧ strLen l > 5 then some (strDrop l 5) else none

/-- `findLine(/^data_(.+)$/)`: capture group of the first matching line. -/
def findDataName : List String → Option String
  | [] => none
  | l :: ls =>
    match matchDataLine l with
    | some n => some n
    | none => findDataName ls

/-- The suffix of `lines` strictly after the first line starting with `key`
(`none` when `findLineIndex` returns `-1`). -/
def dropAfterKey (lines : List String) (key : String) : Option (List String) :=
  match lines with
  | [] => none
  | l :: ls => if strStarts l key then some ls else dropAfterKey ls key

/-- Split `lines` at the first line starting with `key`: the lines strictly
before it and the lines strictly after it. -/
def breakAtKey (lines : List String) (key : String) :
    Option (List String × List String) :=
  match lines with
  | [] => none
  | l :: ls =>
    if strStarts l key then some ([], ls)
    else
      match breakAtKey ls key with
      | some (p, s) => some (l :: p, s)
      | none => none

/-- `extractTextBlock`, in-block phase (`inBlock` is set): append every line
until a lone `;`; `content += (content ? chr(10) : '') + line`. -/
def tbIn : List String → String → String
  | [], c => c
  | l :: ls, c =>
    if l = ";" then c
    else tbIn ls (if c = "" then c ++ l else c ++ "\n" ++ l)

/-- `extractTextBlock`, lookahead for the unwrapped (no opening `;`) variant:
append non-blank lines until a `;` or a `_`/`#` line. -/
def tbLook : List String → String → String
  | [], c => c
  | l :: ls, c =>
    if l = ";" then c
    else if strStarts l "_" ∨ strStarts l "#" then c
    else if jsTrim l ≠ "" then tbLook ls (c ++ "\n" ++ l)
    else tbLook ls c

/-- `extractTextBlock`, scanning phase (before any `;` was seen): a `;`
starts the wrapped block; a non-blank line not starting with `_`/`#` starts
the unwrapped variant; anything else is skipped. -/
def tbScan : List String → String
  | [] => ""
  | l :: ls =>
    if l = ";" then tbIn ls ""
    else if jsTrim l ≠ "" ∧ ¬ strStarts l "_" ∧ ¬ strStarts l "#" then
      tbLook ls l
    else tbScan ls

/-- `extractTextBlock`: locate `key`, scan for the block, then
`content.trim() || undefined`. -/
def extractTextBlock (lines : List String) (key : String) : Option String :=
  match dropAfterKey lines key with
  | none => none
  | some rest =>
    let c := jsTrim (tbScan rest)
    if c = "" then none else some c

/-- `parseMetadata`. -/
def parseMetadata (lines : List String) : MPIFMetadata :=
  { dataName := (findDataName lines).getD ""
    creationDate := jsOr (extractValue lines "_mpif_audit_creation_date") ""
    generatorVersion :=
      jsOr (extractValue lines "_mpif_audit_generator_version") ""
    publicationDOI := some (jsOr
      ((extractValue lines "_mpif_audit_publication_doi").map removeQuotes) "")
    procedureStatus := jsOr
      ((extractValue lines "_mpif_audit_procedure_status").map removeQuotes)
      "test" }

/-- `parseAuthorDetails`. -/
def parseAuthorDetails (lines : List String) : AuthorDetails :=
  { name := jsOr
      ((extractValue lines "_mpif_audit_contact_author_name").map removeQuotes)
      ""
    email := jsOr (extractValue lines "_mpif_audit_contact_author_email") ""
    orcid := jsOr (extractValue lines "_mpif_audit_contact_author_id_orcid") ""
    address := some (jsOr
      ((extractValue lines "_mpif_audit_contact_author_address").map
        removeQuotes) "")
    phone := some (jsOr
      (extractValue lines "_mpif_audit_contact_author_phone") "") }

/-- `parseProductInfo`. -/
def parseProductInfo (lines : List String) : ProductInfo :=
  { type := jsOr ((extractValue lines "_mpif_product_type").map removeQuotes)
      "other"
    casNumber := extractValue lines "_mpif_product_cas"
    ccdcNumber := (extractValue lines "_mpif_product_ccdc").map removeQuotes
    commonName := jsOr
      ((extractValue lines "_mpif_product_name_common").map removeQuotes) ""
    systematicName :=
      (extractValue lines "_mpif_product_name_systematic").map removeQuotes
    formula := (extractValue lines "_mpif_product_formula").map removeQuotes
    formulaWeight := numFalsy (parseFloatM
      (jsOr (extractValue lines "_mpif_product_formula_weight") "0"))
    state := jsOr ((extractValue lines "_mpif_product_state").map removeQuotes)
      "solid"
    color := jsOr ((extractValue lines "_mpif_product_color").map removeQuotes)
      "#000000"
    handlingAtmosphere := jsOr
      ((extractValue lines "_mpif_product_handling_atmosphere").map
        removeQuotes) "air"
    handlingNote := extractTextBlock lines "_mpif_product_handling_note" }

/-- `parseSynthesisGeneral`. -/
def parseSynthesisGeneral (lines : List String) : SynthesisGeneral :=
  { performedDate :=
      jsOr (extractValue lines "_mpif_synthesis_performed_date") ""
    labTemperature := parseFloatM
      (jsOr (extractValue lines "_mpif_synthesis_lab_temperature_C") "0")
    labHumidity := parseFloatM
      (jsOr (extractValue lines "_mpif_synthesis_lab_humidity_percent") "0")
    reactionType := jsOr
      ((extractValue lines "_mpif_synthesis_type").map removeQuotes) "mix"
    reactionTemperature := parseFloatM
      (jsOr (extractValue lines "_mpif_synthesis_react_temperature_C") "0")
    temperatureController := jsOr
      ((extractValue lines "_mpif_synthesis_react_temperature_controller").map
        removeQuotes) "ambient"
    reactionTime := parseFloatM
      (jsOr (extractValue lines "_mpif_synthesis_react_time") "0")
    reactionTimeUnit := jsOr
      ((extractValue lines "_mpif_synthesis_react_time_unit").map removeQuotes)
      "h"
    reactionAtmosphere := jsOr
      ((extractValue lines "_mpif_synthesis_react_atmosphere").map
        removeQuotes) "air"
    reactionContainer := jsOr
      ((extractValue lines "_mpif_synthesis_react_container").map removeQuotes)
      ""
    reactionNote := extractTextBlock lines "_mpif_synthesis_react_note"
    productAmount := parseFloatM
      (jsOr (extractValue lines "_mpif_synthesis_product_amount") "0")
    productAmountUnit := jsOr
      ((extractValue lines "_mpif_synthesis_product_amount_unit").map
        removeQuotes) "mg"
    productYield := numFalsy (parseFloatM
      (jsOr (extractValue lines "_mpif_synthesis_product_yield_percent") "0"))
    scale := jsOr ((extractValue lines "_mpif_synthesis_scale").map
      removeQuotes) "milligram"
    safetyNote := extractTextBlock lines "_mpif_synthesis_safety_note" }

/-! ### `parseLoopData` -/

/-- The numeric loop fields (`['molarity', 'amount', 'purity', 'volume']`). -/
def numericLoopFields : List String := ["molarity", "amount", "purity", "volume"]

/-- Per-cell conversion in `parseLoopData`: numeric fields through
`parseFloat` (`NaN` to `undefined`), string fields trimmed with the
placeholder tokens `?`, `-` and the empty string mapped to `undefined`. -/
def convertCell (field value : String) : Option CellVal :=
  if field ∈ numericLoopFields then (parseFloatM value).map CellVal.num
  else
    let v := jsTrim value
    if v = "?" ∨ v = "-" ∨ v = "" then none else some (CellVal.str v)

/-- Build one loop item from a data line's tab-split `values`
(`values[index] || ''` reads the empty string past the end). -/
def mkItem (fields : List String) (values : List String) : LoopItem :=
  fields.enum.map (fun p => (p.2, convertCell p.2 (values.getD p.1 "")))

/-- Skip the `loop_`/field-name preamble: first line that does not start
with `_mpif_` or `loop_` and is not blank.  When no such line exists the
source leaves `dataStart` at the preamble start and the consumption loop
then stops on its first line; returning `[]` here is observationally the
same. -/
def skipLoopHeader : List String → List String
  | [] => []
  | l :: ls =>
    if ¬ strStarts l "_mpif_" ∧ ¬ strStarts l "loop_" ∧ jsTrim l ≠ "" then
      l :: ls
    else skipLoopHeader ls

/-- The loop guard `itemsParsed < count` (`count` is `NaN` when `none`, and
every comparison with `NaN` is false). -/
def underCount (parsed : Nat) (count : Option Int) : Bool :=
  match count with
  | some c => (parsed : Int) < c
  | none => false

/-- The consumption loop of `parseLoopData`: stop at a `_mpif_` line, a `#`
line, a blank line or when the declared count is reached; skip data lines
with fewer columns than field names. -/
def consumeLoop (fields : List String) (count : Option Int) :
    List String → Nat → List LoopItem
  | [], _ => []
  | l :: ls, parsed =>
    if ¬ underCount parsed count then []
    else if strStarts l "_mpif_" ∨ strStarts l "#" ∨ l = "" then []
    else
      let values := jsSplit '\t' l
      if values.length < fields.length then consumeLoop fields count ls parsed
      else mkItem fields values :: consumeLoop fields count ls (parsed + 1)

/-- `parseLoopData(type, fields)`. -/
def parseLoopData (lines : List String) (type' : String)
    (fields : List String) : List LoopItem :=
  let count := parseIntM (jsOr
    (extractValue lines ("_mpif_" ++ type' ++ "_number")) "0")
  if count = some 0 then []
  else
    match dropAfterKey lines ("_mpif_" ++ type' ++ "_id") with
    | none => []
    | some rest => consumeLoop fields count (skipLoopHeader rest) 0

/-- The substrate (and solvent) loop field names. -/
def substrateFields : List String :=
  ["id", "name", "molarity", "molarityUnit", "amount", "amountUnit",
   "supplier", "purity", "casNumber", "smiles"]

/-- The vessel loop field names. -/
def vesselFields : List String :=
  ["id", "volume", "volumeUnit", "material", "type", "supplier",
   "purpose", "note"]

/-- The hardware loop field names. -/
def hardwareFields : List String :=
  ["id", "purpose", "generalName", "productName", "supplier", "note"]

/-- The procedure-step loop field names. -/
def stepFields : List String := ["id", "type", "atmosphere", "detail"]

/-- `parseSynthesisDetails`. -/
def parseSynthesisDetails (lines : List String) : SynthesisDetails :=
  { substrates := parseLoopData lines "substrate" substrateFields
    solvents := parseLoopData lines "solvent" substrateFields
    vessels := parseLoopData lines "vessel" vesselFields
    hardware := parseLoopData lines "hardware" hardwareFields
    steps := parseLoopData lines "procedure" stepFields
    procedureFull := extractTextBlock lines "_mpif_procedure_full" }

/-! ### `parseCharacterization` -/

/-- Tab field 1 of a line, as JS `line.split(chr(9))[1]` (`undefined` when
there is no tab). -/
def tabField1 (l : String) : Option String := (jsSplit '\t' l).get? 1

/-- `parseFloat(line.split(tab)[1])`: a missing field is `NaN`. -/
def parseTab1Num (l : String) : Option Int :=
  match tabField1 l with
  | none => none
  | some v => parseFloatM v

/-- Parse one two-column numeric data line; the point is kept only when
both columns parse (`!isNaN`). -/
def pairOf (l : String) : List (Int × Int) :=
  let parts := jsSplit '\t' l
  if parts.length ≥ 2 then
    match parseFloatM (parts.getD 0 ""), parseFloatM (parts.getD 1 "") with
    | some a, some b => [(a, b)]
    | _, _ => []
  else []

/-- Parse one three-column numeric data line (adsorption/desorption). -/
def tripleOf (l : String) : List (Int × Int × Int) :=
  let parts := jsSplit '\t' l
  if parts.length ≥ 3 then
    match parseFloatM (parts.getD 0 ""), parseFloatM (parts.getD 1 ""),
      parseFloatM (parts.getD 2 "") with
    | some a, some b, some c => [(a, b, c)]
    | _, _, _ => []
  else []

/-- Accumulator of the PXRD scanning loop. -/
structure PXRDAcc where
  source : Option String
  wavelength : Option Int
  data : List (Int × Int)
  deriving DecidableEq, Repr

/-- The PXRD loop body (from the line after `_mpif_pxrd_data`): a lone `;`
inside the loop or a `_mpif_` line inside the loop ends it; `source` and
`lambda` lines set the metadata; a field-name line arms `inLoopData`. -/
def pxrdLoop : List String → Bool → PXRDAcc → PXRDAcc
  | [], _, acc => acc
  | l :: ls, inLoop, acc =>
    if l = ";" ∧ inLoop then acc
    else if jsIncludes l "_mpif_pxrd_source" then
      pxrdLoop ls inLoop { acc with source := (tabField1 l).map removeQuotes }
    else if jsIncludes l "_mpif_pxrd_lambda" then
      pxrdLoop ls inLoop { acc with wavelength := parseTab1Num l }
    else if jsIncludes l "_pxrd_2theta" ∨ jsIncludes l "_pxrd_intensity" then
      pxrdLoop ls true acc
    else if inLoop ∧ jsIncludes l "\t" ∧ ¬ strStarts l "_" then
      pxrdLoop ls inLoop { acc with data := acc.data ++ pairOf l }
    else if strStarts l "_mpif_" ∧ inLoop then acc
    else pxrdLoop ls inLoop acc

/-- The TGA loop body (from the line after `_mpif_tga_data`). -/
def tgaLoop : List String → Bool → List (Int × Int) → List (Int × Int)
  | [], _, acc => acc
  | l :: ls, inLoop, acc =>
    if l = ";" ∧ inLoop then acc
    else if jsIncludes l "_tga_temperature_celcius" ∨
        jsIncludes l "_tga_weight_percent" then
      tgaLoop ls true acc
    else if inLoop ∧ jsIncludes l "\t" ∧ ¬ strStarts l "_" then
      tgaLoop ls inLoop (acc ++ pairOf l)
    else if strStarts l "_mpif_" ∧ inLoop then acc
    else tgaLoop ls inLoop acc

/-- One step of the adsorption metadata scan (over the lines before
`_adsorp_pressure`); later lines overwrite earlier ones. -/
def adsMetaStep (acc : AdsorptionData) (l : String) : AdsorptionData :=
  if jsIncludes l "_exptl_temperature" then
    { acc with experimentalTemperature := parseTab1Num l }
  else if jsIncludes l "_exptl_method" then
    { acc with experimentalMethod := (tabField1 l).map removeQuotes }
  else if jsIncludes l "_adsnt_sample_mass" then
    { acc with sampleMass := parseTab1Num l }
  else if jsIncludes l "_adsnt_sample_id" then
    { acc with sampleId := (tabField1 l).map removeQuotes }
  else if jsIncludes l "_adsnt_material_id" then
    { acc with materialId := (tabField1 l).map removeQuotes }
  else if jsIncludes l "_adsnt_info" then
    { acc with sampleInfo := (tabField1 l).map removeQuotes }
  else if jsIncludes l "_units_temperature" then
    { acc with units := { acc.units with temperature := (tabField1 l).map removeQuotes } }
  else if jsIncludes l "_units_pressure" then
    { acc with units := { acc.units with pressure := (tabField1 l).map removeQuotes } }
  else if jsIncludes l "_units_mass" then
    { acc with units := { acc.units with mass := (tabField1 l).map removeQuotes } }
  else if jsIncludes l "_units_loading" then
    { acc with units := { acc.units with loading := (tabField1 l).map removeQuotes } }
  else acc

/-- The adsorption data loop (from the line after `_adsorp_pressure`):
a `_desorp_` line, a `#` line or a blank line ends it. -/
def adsLoop : List String → Bool → List (Int × Int × Int) →
    List (Int × Int × Int)
  | [], _, acc => acc
  | l :: ls, inLoop, acc =>
    if jsIncludes l "_adsorp_p0" ∨ jsIncludes l "_adsorp_amount" then
      adsLoop ls true acc
    else if inLoop ∧ jsIncludes l "\t" ∧ ¬ strStarts l "_" then
      adsLoop ls inLoop (acc ++ tripleOf l)
    else if strStarts l "_desorp_" ∨ strStarts l "#" ∨ l = "" then acc
    else adsLoop ls inLoop acc

/-- The desorption data loop (from the line after `_desorp_pressure`);
per the source, it ends at a `_` line that is not `_desorp_`, or a `#`
line. -/
def desorpLoop : List String → Bool → List (Int × Int × Int) →
    List (Int × Int × Int)
  | [], _, acc => acc
  | l :: ls, inLoop, acc =>
    if jsIncludes l "_desorp_p0" ∨ jsIncludes l "_desorp_amount" then
      desorpLoop ls true acc
    else if inLoop ∧ jsIncludes l "\t" ∧ ¬ strStarts l "_" then
      desorpLoop ls inLoop (acc ++ tripleOf l)
    else if (strStarts l "_" ∧ ¬ strStarts l "_desorp_") ∨ strStarts l "#" then
      acc
    else desorpLoop ls inLoop acc

/-- The empty adsorption accumulator (`data: [], units: ...`). -/
def adsInit : AdsorptionData :=
  { experimentalTemperature := none, experimentalMethod := none
    sampleMass := none, sampleId := none, materialId := none
    sampleInfo := none
    units := { temperature := none, pressure := none, mass := none,
               loading := none }
    data := [] }

/-- `parseCharacterization`. -/
def parseCharacterization (lines : List String) : Characterization :=
  let pxrd :=
    match dropAfterKey lines "_mpif_pxrd_data" with
    | none => none
    | some rest =>
      let acc := pxrdLoop rest false
        { source := none, wavelength := none, data := [] }
      if acc.data.length > 0 then
        some { source := acc.source, wavelength := acc.wavelength,
               data := acc.data }
      else none
  let tga :=
    match dropAfterKey lines "_mpif_tga_data" with
    | none => none
    | some rest =>
      let d := tgaLoop rest false []
      if d.length > 0 then some { data := d } else none
  let adsorption :=
    match breakAtKey lines "_adsorp_pressure" with
    | none => none
    | some (pre, post) =>
      let meta := pre.foldl adsMetaStep adsInit
      let d := adsLoop post false []
      if d.length > 0 then some { meta with data := d } else none
  let desorption :=
    match dropAfterKey lines "_desorp_pressure" with
    | none => none
    | some rest =>
      let d := desorpLoop rest false []
      if d.length > 0 then some { data := d } else none
  { pxrd := pxrd, tga := tga, adsorption := adsorption,
    desorption := desorption
    aif := extractTextBlock lines "_mpif_aif" }

/-- `parse` on an already split-and-trimmed line list. -/
def parseL (lines : List String) : MPIFData :=
  { metadata := parseMetadata lines
    authorDetails := parseAuthorDetails lines
    productInfo := parseProductInfo lines
    synthesisGeneral := parseSynthesisGeneral lines
    synthesisDetails := parseSynthesisDetails lines
    characterization := parseCharacterization lines }

/-- `MPIFParser.parse` (also the convenience `parseMPIF`): total on every
input, exactly as the throw-free source. -/
def parse (content : String) : MPIFData := parseL (linesOf content)

/-! ## Encoder (`MPIFParser.stringify`)

One definition per `result +=` block of the source, concatenated at the
end in the source's order. -/

/-- Concatenation of the strings a `forEach` loop appends in order. -/
def strConcat : List String → String
  | [] => ""
  | a :: l => a ++ strConcat l

/-- JS property access on a loop item (a missing property is `undefined`). -/
def cellAt (it : LoopItem) (f : String) : Option CellVal :=
  match it with
  | [] => none
  | (g, c) :: rest => if g = f then c else cellAt rest f

/-- JS template interpolation of a loop cell. -/
def renderCell (c : Option CellVal) : String :=
  match c with
  | none => "undefined"
  | some (CellVal.num n) => toString n
  | some (CellVal.str s) => s

/-- JS `cell || d` in a template (`undefined`, `NaN` is impossible here,
`0` and the empty string fall back to `d`). -/
def renderCellOr (c : Option CellVal) (d : String) : String :=
  match c with
  | none => d
  | some (CellVal.num 0) => d
  | some (CellVal.num n) => toString n
  | some (CellVal.str s) => if s = "" then d else s

/-- Header and metadata lines of `stringify`. -/
def headerSec (d : MPIFData) : String :=
  "data_" ++ d.metadata.dataName ++ "\n" ++
  "_mpif_audit_creation_date\t" ++ d.metadata.creationDate ++ "\n" ++
  "_mpif_audit_generator_version\t" ++ d.metadata.generatorVersion ++ "\n" ++
  (if jsTruthyS d.metadata.publicationDOI then
    "_mpif_audit_publication_doi\t'" ++ renderOptS d.metadata.publicationDOI
      ++ "'\n"
  else "_mpif_audit_publication_doi\t''\n") ++
  "_mpif_audit_procedure_status\t'" ++ d.metadata.procedureStatus ++ "'\n\n"

/-- Section 1 (author details) of `stringify`. -/
def authorSec (d : MPIFData) : String :=
  "#Section 1: Author details\n" ++
  "_mpif_audit_contact_author_name\t'" ++ d.authorDetails.name ++ "'\n" ++
  "_mpif_audit_contact_author_email\t" ++ d.authorDetails.email ++ "\n" ++
  "_mpif_audit_contact_author_id_orcid\t" ++ d.authorDetails.orcid ++ "\n" ++
  "_mpif_audit_contact_author_address\t'" ++ jsOr d.authorDetails.address ""
    ++ "'\n" ++
  "_mpif_audit_contact_author_phone\t" ++ jsOr d.authorDetails.phone "?"
    ++ "\n\n"

/-- Section 2 (product information) of `stringify`. -/
def productSec (d : MPIFData) : String :=
  "#Section 2: Product General Information\n" ++
  "_mpif_product_type\t'" ++ d.productInfo.type ++ "'\n" ++
  "_mpif_product_cas\t" ++ jsOr d.productInfo.casNumber "?" ++ "\n" ++
  "_mpif_product_ccdc\t'" ++ jsOr d.productInfo.ccdcNumber "" ++ "'\n" ++
  "_mpif_product_name_common\t'" ++ d.productInfo.commonName ++ "'\n" ++
  "_mpif_product_name_systematic\t'" ++ jsOr d.productInfo.systematicName ""
    ++ "'\n" ++
  "_mpif_product_formula\t'" ++ jsOr d.productInfo.formula "" ++ "'\n" ++
  "_mpif_product_formula_weight\t" ++ numOrEmpty d.productInfo.formulaWeight
    ++ "\n" ++
  "_mpif_product_state\t'" ++ d.productInfo.state ++ "'\n" ++
  "_mpif_product_color\t'" ++ d.productInfo.color ++ "'\n" ++
  "_mpif_product_handling_atmosphere\t'" ++ d.productInfo.handlingAtmosphere
    ++ "'\n" ++
  "_mpif_product_handling_note\n;\n" ++ jsOr d.productInfo.handlingNote ""
    ++ "\n;\n\n"

/-- Section 3 (synthesis general) of `stringify`. -/
def synthGeneralSec (d : MPIFData) : String :=
  "#Section 3: Synthesis General Information\n" ++
  "_mpif_synthesis_performed_date\t" ++ d.synthesisGeneral.performedDate
    ++ "\n" ++
  "_mpif_synthesis_lab_temperature_C\t" ++
    renderNumNaN d.synthesisGeneral.labTemperature ++ "\n" ++
  "_mpif_synthesis_lab_humidity_percent\t" ++
    renderNumNaN d.synthesisGeneral.labHumidity ++ "\n" ++
  "_mpif_synthesis_type\t'" ++ d.synthesisGeneral.reactionType ++ "'\n" ++
  "_mpif_synthesis_react_temperature_C\t" ++
    renderNumNaN d.synthesisGeneral.reactionTemperature ++ "\n" ++
  "_mpif_synthesis_react_temperature_controller\t'" ++
    d.synthesisGeneral.temperatureController ++ "'\n" ++
  "_mpif_synthesis_react_time\t" ++
    renderNumNaN d.synthesisGeneral.reactionTime ++ "\n" ++
  "_mpif_synthesis_react_time_unit\t'" ++
    d.synthesisGeneral.reactionTimeUnit ++ "'\n" ++
  "_mpif_synthesis_react_atmosphere\t'" ++
    d.synthesisGeneral.reactionAtmosphere ++ "'\n" ++
  "_mpif_synthesis_react_container\t'" ++
    d.synthesisGeneral.reactionContainer ++ "'\n" ++
  "_mpif_synthesis_react_note\n;\n" ++ jsOr d.synthesisGeneral.reactionNote ""
    ++ "\n;\n" ++
  "_mpif_synthesis_product_amount\t" ++
    renderNumNaN d.synthesisGeneral.productAmount ++ "\n" ++
  "_mpif_synthesis_product_amount_unit\t'" ++
    d.synthesisGeneral.productAmountUnit ++ "'\n" ++
  emitIfNum d.synthesisGeneral.productYield
    (fun n => "_mpif_synthesis_product_yield_percent\t" ++ toString n ++ "\n")
    ++
  "_mpif_synthesis_scale\t'" ++ d.synthesisGeneral.scale ++ "'\n" ++
  "_mpif_synthesis_safety_note\n;\n" ++ jsOr d.synthesisGeneral.safetyNote ""
    ++ "\n;\n\n"

/-- The repeated-record emission pattern shared by the five collections:
a count line holding the collection's length, the `loop_` marker, the
field-name preamble, one data line per record, and a blank line; collections
of length `0` emit nothing. -/
def loopSec (numberKey header : String) (lineOf : LoopItem → String)
    (rs : List LoopItem) : String :=
  if rs.length > 0 then
    numberKey ++ "\t" ++ toString rs.length ++ "\n" ++ "loop_\n" ++ header ++
      strConcat (rs.map (fun r => lineOf r ++ "\n")) ++ "\n"
  else ""

/-- One substrate data line (identical template for solvents). -/
def substrateLine (r : LoopItem) : String :=
  renderCell (cellAt r "id") ++ "\t" ++ renderCell (cellAt r "name") ++ "\t" ++
  renderCellOr (cellAt r "molarity") "" ++ "\t" ++
  renderCellOr (cellAt r "molarityUnit") "" ++ "\t" ++
  renderCell (cellAt r "amount") ++ "\t" ++
  renderCell (cellAt r "amountUnit") ++ "\t" ++
  renderCellOr (cellAt r "supplier") "" ++ "\t" ++
  renderCellOr (cellAt r "purity") "" ++ "\t" ++
  renderCellOr (cellAt r "casNumber") "" ++ "\t" ++
  renderCellOr (cellAt r "smiles") "?"

/-- One vessel data line. -/
def vesselLine (r : LoopItem) : String :=
  renderCell (cellAt r "id") ++ "\t" ++ renderCell (cellAt r "volume") ++
  "\t" ++ renderCell (cellAt r "volumeUnit") ++ "\t" ++
  renderCell (cellAt r "material") ++ "\t" ++ renderCell (cellAt r "type") ++
  "\t" ++ renderCellOr (cellAt r "supplier") "-" ++ "\t" ++
  renderCell (cellAt r "purpose") ++ "\t" ++ renderCellOr (cellAt r "note") "-"

/-- One hardware data line. -/
def hardwareLine (r : LoopItem) : String :=
  renderCell (cellAt r "id") ++ "\t" ++ renderCell (cellAt r "purpose") ++
  "\t" ++ renderCell (cellAt r "generalName") ++ "\t" ++
  renderCellOr (cellAt r "productName") "" ++ "\t" ++
  renderCellOr (cellAt r "supplier") "" ++ "\t" ++
  renderCellOr (cellAt r "note") "-"

/-- One procedure-step data line. -/
def stepLine (r : LoopItem) : String :=
  renderCell (cellAt r "id") ++ "\t" ++ renderCell (cellAt r "type") ++
  "\t" ++ renderCell (cellAt r "atmosphere") ++ "\t" ++
  renderCell (cellAt r "detail")

/-- The substrate field-name preamble emitted by `stringify`. -/
def substrateHeader : String :=
  "_mpif_substrate_id\n_mpif_substrate_name\n_mpif_substrate_molarity\n_mpif_substrate_molarity_unit\n_mpif_substrate_amount\n_mpif_substrate_amount_unit\n_mpif_substrate_supplier\n_mpif_substrate_purity_percent\n_mpif_substrate_cas\n_mpif_substrate_smiles\n"

/-- The solvent field-name preamble emitted by `stringify`. -/
def solventHeader : String :=
  "_mpif_solvent_id\n_mpif_solvent_name\n_mpif_solvent_molarity\n_mpif_solvent_molarity_unit\n_mpif_solvent_amount\n_mpif_solvent_amount_unit\n_mpif_solvent_supplier\n_mpif_solvent_purity_percent\n_mpif_solvent_cas\n_mpif_solvent_smiles\n"

/-- The vessel field-name preamble emitted by `stringify`. -/
def vesselHeader : String :=
  "_mpif_vessel_id\n_mpif_vessel_volume\n_mpif_vessel_volume_unit\n_mpif_vessel_material\n_mpif_vessel_type\n_mpif_vessel_supplier\n_mpif_vessel_purpose\n_mpif_vessel_note\n"

/-- The hardware field-name preamble emitted by `stringify`. -/
def hardwareHeader : String :=
  "_mpif_hardware_id\n_mpif_hardware_purpose\n_mpif_hardware_general_name\n_mpif_hardware_product_name\n_mpif_hardware_supplier\n_mpif_hardware_note\n"

/-- The procedure-step field-name preamble emitted by `stringify`. -/
def stepHeader : String :=
  "_mpif_procedure_id\n_mpif_procedure_type\n_mpif_procedure_atmosphere\n_mpif_procedure_detail\n"

/-- The full-procedure block of `stringify` (emitted when truthy). -/
def procFullSec (o : Option String) : String :=
  if jsTruthyS o then
    "_mpif_procedure_full\n;\n" ++ renderOptS o ++ "\n;\n\n"
  else ""

/-- Section 4 (synthesis details) of `stringify`. -/
def synthDetailsSec (d : MPIFData) : String :=
  "#Section 4: Synthesis Procedure Details\n" ++
  loopSec "_mpif_substrate_number" substrateHeader substrateLine
    d.synthesisDetails.substrates ++
  loopSec "_mpif_solvent_number" solventHeader substrateLine
    d.synthesisDetails.solvents ++
  loopSec "_mpif_vessel_number" vesselHeader vesselLine
    d.synthesisDetails.vessels ++
  loopSec "_mpif_hardware_number" hardwareHeader hardwareLine
    d.synthesisDetails.hardware ++
  loopSec "_mpif_procedure_number" stepHeader stepLine
    d.synthesisDetails.steps ++
  procFullSec d.synthesisDetails.procedureFull

/-- One PXRD data line plus its newline. -/
def pxrdPointLine (p : Int × Int) : String :=
  toString p.1 ++ "\t" ++ toString p.2 ++ "\n"

/-- One TGA data line plus its newline. -/
def tgaPointLine (p : Int × Int) : String :=
  toString p.1 ++ "\t" ++ toString p.2 ++ "\n"

/-- The PXRD block of `stringify`'s characterization section. -/
def pxrdSec (o : Option PXRDData) : String :=
  match o with
  | none => ""
  | some p =>
    "_mpif_pxrd_data\n;\n" ++
    "_mpif_pxrd_source\t'" ++ renderOptS p.source ++ "'\n" ++
    emitIfNum p.wavelength
      (fun n => "_mpif_pxrd_lambda\t" ++ toString n ++ "\n") ++
    "loop_\n_pxrd_2theta\n_pxrd_intensity\n" ++
    strConcat (p.data.map pxrdPointLine) ++ ";\n\n"

/-- The TGA block of `stringify`'s characterization section.  Note the
missing newline after the literal `_tga_weight_percent`, just as in the
source. -/
def tgaSec (o : Option TGAData) : String :=
  match o with
  | none => ""
  | some t =>
    "_mpif_tga_data\n;\nloop_\n_tga_temperature_celcius\n_tga_weight_percent"
      ++ strConcat (t.data.map tgaPointLine) ++ ";\n\n"

/-- The AIF block of `stringify`'s characterization section. -/
def aifSec (o : Option String) : String :=
  if jsTruthyS o then "_mpif_aif\n;\n" ++ renderOptS o ++ "\n;\n" else ""

/-- The characterization section of `stringify`: emitted when PXRD, TGA or
a (truthy) AIF blob is present; the source writes no adsorption and no
desorption lines. -/
def charSec (d : MPIFData) : String :=
  if d.characterization.pxrd.isSome ∨ d.characterization.tga.isSome ∨
      jsTruthyS d.characterization.aif then
    "#Characterization Information\n\n" ++
    pxrdSec d.characterization.pxrd ++
    tgaSec d.characterization.tga ++
    aifSec d.characterization.aif
  else ""

/-- `MPIFParser.stringify` (also the convenience `stringifyMPIF`). -/
def stringify (d : MPIFData) : String :=
  headerSec d ++ authorSec d ++ productSec d ++ synthGeneralSec d ++
    synthDetailsSec d ++ charSec d

/-! ## Concrete example inputs used by the claims -/

/-- A minimal file with a well-formed two-point TGA block. -/
def tgaText : String :=
  "data_T\n_mpif_tga_data\n;\nloop_\n_tga_temperature_celcius\n_tga_weight_percent\n30\t98\n40\t90\n;"

/-- A file carrying a two-point adsorption series and a one-point
desorption series. -/
def adsText : String :=
  "data_T\n_exptl_temperature\t77\n_adsorp_pressure\n_adsorp_p0\n_adsorp_amount\n1\t100\t5\n2\t100\t7\n\n_desorp_pressure\n_desorp_p0\n_desorp_amount\n2\t100\t7\n\n"

/-- The ten substrate field-name lines as they occur in a file. -/
def subHeaderText : String :=
  "_mpif_substrate_id\n_mpif_substrate_name\n_mpif_substrate_molarity\n_mpif_substrate_molarity_unit\n_mpif_substrate_amount\n_mpif_substrate_amount_unit\n_mpif_substrate_supplier\n_mpif_substrate_purity_percent\n_mpif_substrate_cas\n_mpif_substrate_smiles\n"

/-- A file with two substrates whose stored identifiers are `X9` and
`Q2` (not the positional `R1`, `R2`). -/
def subText : String :=
  "data_T\n_mpif_substrate_number\t2\nloop_\n" ++ subHeaderText ++
  "X9\tZnCl2\t\t\t5\tmg\t\t\t\t?\nQ2\tH2O\t\t\t1\tmL\t\t\t\t?\n\n"

/-- The substrate identifier cells of a document, in collection order. -/
def substrateIds (d : MPIFData) : List (Option CellVal) :=
  d.synthesisDetails.substrates.map (fun r => cellAt r "id")

/-- A file whose substrate loop declares three records but carries only
two well-formed data lines before a blank line. -/
def truncText : String :=
  "data_T\n_mpif_substrate_number\t3\nloop_\n" ++ subHeaderText ++
  "R1\ta\t\t\t5\tmg\t\t\t\t?\nR2\tb\t\t\t1\tmL\t\t\t\t?\n\n_mpif_solvent_number\t0\n"

/-- A file whose substrate loop declares two records, with one malformed
(too few columns) line before a single well-formed one. -/
def malformedLoopText : String :=
  "data_T\n_mpif_substrate_number\t2\nloop_\n" ++ subHeaderText ++
  "bad\tonly\tfew\nR1\ta\t\t\t5\tmg\t\t\t\t?\n\n"

/-- A file whose handling-note block opens with `;` but never closes. -/
def unmatchedText : String :=
  "data_T\n_mpif_product_handling_note\n;\nabc\n_mpif_product_color\t'red'"

/-- A file whose handling-note block has a content line with leading and
trailing spaces. -/
def indentText : String :=
  "data_T\n_mpif_product_handling_note\n;\n  Line one  \nLine two\n;"

/-- A file whose handling-note block has leading, interior and trailing
blank lines. -/
def blankPadText : String :=
  "data_T\n_mpif_product_handling_note\n;\n\nLine one\n\nLine two\n\n;"

/-- The document `parse` returns for an input with no recognizable
structure at all: every field defaulted, every collection empty. -/
def defaultDoc : MPIFData :=
  { metadata := { dataName := "", creationDate := "", generatorVersion := ""
                  publicationDOI := some "", procedureStatus := "test" }
    authorDetails := { name := "", email := "", orcid := ""
                       address := some "", phone := some "" }
    productInfo := { type := "other", casNumber := none, ccdcNumber := none
                     commonName := "", systematicName := none, formula := none
                     formulaWeight := none, state := "solid"
                     color := "#000000", handlingAtmosphere := "air"
                     handlingNote := none }
    synthesisGeneral := { performedDate := "", labTemperature := some 0
                          labHumidity := some 0, reactionType := "mix"
                          reactionTemperature := some 0
                          temperatureController := "ambient"
                          reactionTime := some 0, reactionTimeUnit := "h"
                          reactionAtmosphere := "air", reactionContainer := ""
                          reactionNote := none, productAmount := some 0
                          productAmountUnit := "mg", productYield := none
                          scale := "milligram", safetyNote := none }
    synthesisDetails := { substrates := [], solvents := [], vessels := []
                          hardware := [], steps := [], procedureFull := none }
    characterization := { pxrd := none, tga := none, adsorption := none
                          desorption := none, aif := none } }

/-- `defaultDoc` with a TGA series attached (used to exercise the TGA
serialization off-by-one). -/
def withTGA (pts : List (Int × Int)) : MPIFData :=
  { defaultDoc with characterization :=
      { defaultDoc.characterization with tga := some { data := pts } } }

/-- A document with its adsorption and desorption series replaced. -/
def withAds (d : MPIFData) (a : Option AdsorptionData)
    (b : Option DesorptionData) : MPIFData :=
  { d with characterization :=
      { d.characterization with adsorption := a, desorption := b } }

/-- No line of the input matches the `data_` header pattern. -/
def noDataLine (t : String) : Prop :=
  ∀ l ∈ linesOf t, matchDataLine l = none

instance (t : String) : Decidable (noDataLine t) := by
  unfold noDataLine; infer_instance

/-- The substrate field-name preamble as the decoder sees it: one line per
field name. -/
def subHeaderLines : List String :=
  ["_mpif_substrate_id", "_mpif_substrate_name", "_mpif_substrate_molarity",
   "_mpif_substrate_molarity_unit", "_mpif_substrate_amount",
   "_mpif_substrate_amount_unit", "_mpif_substrate_supplier",
   "_mpif_substrate_purity_percent", "_mpif_substrate_cas",
   "_mpif_substrate_smiles"]

/-- The line list of a substrate loop declaring three records followed by
the lines `d1`, `d2`, a terminator `term` and arbitrary further lines. -/
def c5Lines (d1 d2 term : String) (rest : List String) : List String :=
  "_mpif_substrate_number\t3" :: "loop_" :: subHeaderLines ++
    d1 :: d2 :: term :: rest

/-- A well-formed tab-delimited substrate data line, as the consumption
loop classifies lines: not a key/preamble/comment line, not blank, and
carrying at least as many columns as there are field names. -/
def goodDataLine (l : String) : Prop :=
  strStarts l "_mpif_" = false ∧ strStarts l "loop_" = false ∧
  strStarts l "#" = false ∧ l ≠ "" ∧ jsTrim l ≠ "" ∧
  10 ≤ (jsSplit '\t' l).length

instance (l : String) : Decidable (goodDataLine l) := by
  unfold goodDataLine; infer_instance

/-- A line that ends the consumption loop: blank, comment, or new key. -/
def stopLine (l : String) : Prop :=
  l = "" ∨ strStarts l "#" = true ∨ strStarts l "_mpif_" = true

instance (l : String) : Decidable (stopLine l) := by
  unfold stopLine; infer_instance

/-- The tab-separated representation of one TGA point (one data line,
before its newline is appended). -/
def tgaCore (p : Int × Int) : String := toString p.1 ++ "\t" ++ toString p.2

/-- The trimmed lines following the `_mpif_tga_data` marker in the
serializer's output for a TGA series `pt :: rest`: the first point is glued
onto the `_tga_weight_percent` field-name line. -/
def tgaSecLines (pt : Int × Int) (rest : List (Int × Int))
    (trailing : List String) : List String :=
  ";" :: "loop_" :: "_tga_temperature_celcius" ::
    ("_tga_weight_percent" ++ tgaCore pt) ::
    (rest.map tgaCore ++ ";" :: trailing)

/-- The rendered line of a TGA point behaves as a data line for the TGA
scanning loop and parses back to exactly that point. -/
def tgaLineOk (q : Int × Int) : Prop :=
  jsIncludes (tgaCore q) "_tga_temperature_celcius" = false ∧
  jsIncludes (tgaCore q) "_tga_weight_percent" = false ∧
  tgaCore q ≠ ";" ∧ jsIncludes (tgaCore q) "\t" = true ∧
  strStarts (tgaCore q) "_" = false ∧ pairOf (tgaCore q) = [q]

instance (q : Int × Int) : Decidable (tgaLineOk q) := by
  unfold tgaLineOk; infer_instance

/-- The glued `_tga_weight_percent` line is classified as a field-name
line (so its data point is discarded). -/
def tgaMergeOk (p : Int × Int) : Prop :=
  ("_tga_weight_percent" ++ tgaCore p) ≠ ";" ∧
  jsIncludes ("_tga_weight_percent" ++ tgaCore p) "_tga_weight_percent" = true

instance (p : Int × Int) : Decidable (tgaMergeOk p) := by
  unfold tgaMergeOk; infer_instance

/-- The line list of a wrapped text block holding the content lines `l1`,
a blank line, and `l2`. -/
def tbLines (l1 l2 : String) (junk : List String) : List String :=
  "_mpif_procedure_full" :: ";" :: l1 :: "" :: l2 :: ";" :: junk

/-- A document with its substrate collection replaced. -/
def withSubstrates (d : MPIFData) (xs : List LoopItem) : MPIFData :=
  { d with synthesisDetails := { d.synthesisDetails with substrates := xs } }

/-- A document with its solvent collection replaced. -/
def withSolvents (d : MPIFData) (xs : List LoopItem) : MPIFData :=
  { d with synthesisDetails := { d.synthesisDetails with solvents := xs } }

/-- A document with its vessel collection replaced. -/
def withVessels (d : MPIFData) (xs : List LoopItem) : MPIFData :=
  { d with synthesisDetails := { d.synthesisDetails with vessels := xs } }

/-- A document with its hardware collection replaced. -/
def withHardware (d : MPIFData) (xs : List LoopItem) : MPIFData :=
  { d with synthesisDetails := { d.synthesisDetails with hardware := xs } }

/-- A document with its procedure-step collection replaced. -/
def withSteps (d : MPIFData) (xs : List LoopItem) : MPIFData :=
  { d with synthesisDetails := { d.synthesisDetails with steps := xs } }

/-- The trimmed lines of the serializer's substrate section for records
`rs` (count line, `loop_` marker, field-name preamble, one data line per
record, blank line), followed by arbitrary further lines. -/
def subSecLines (rs : List LoopItem) (trailing : List String) : List String :=
  ("_mpif_substrate_number\t" ++ toString rs.length) :: "loop_" ::
    subHeaderLines ++ rs.map substrateLine ++ "" :: trailing

/-- The serialized data line of a substrate record is classified as a
well-formed data line by the consumption loop, and its first tab field is
the rendered id cell. -/
def subLineOk (r : LoopItem) : Prop :=
  strStarts (substrateLine r) "_mpif_" = false ∧
  strStarts (substrateLine r) "#" = false ∧
  strStarts (substrateLine r) "loop_" = false ∧
  substrateLine r ≠ "" ∧ jsTrim (substrateLine r) ≠ "" ∧
  substrateFields.length ≤ (jsSplit '\t' (substrateLine r)).length ∧
  (jsSplit '\t' (substrateLine r)).getD 0 "" = renderCell (cellAt r "id")

instance (r : LoopItem) : Decidable (subLineOk r) := by
  unfold subLineOk; infer_instance

/-- A substrate record whose stored identifier is the string `X9`. -/
def subItemX9 : LoopItem :=
  [("id", some (CellVal.str "X9")), ("name", some (CellVal.str "ZnCl2")),
   ("molarity", none), ("molarityUnit", none),
   ("amount", some (CellVal.num 5)), ("amountUnit", some (CellVal.str "mg")),
   ("supplier", none), ("purity", none), ("casNumber", none),
   ("smiles", none)]

/-- A substrate record whose identifier cell is absent (as the decoder
produces for an id column holding `?`, `-` or nothing). -/
def subItemNoId : LoopItem :=
  [("id", none), ("name", some (CellVal.str "H2O")),
   ("molarity", none), ("molarityUnit", none),
   ("amount", some (CellVal.num 1)), ("amountUnit", some (CellVal.str "mL")),
   ("supplier", none), ("purity", none), ("casNumber", none),
   ("smiles", none)]

/-! ## Helper lemmas -/

/-- When no (trimmed) line matches the `data_` pattern, the scan fails. -/
theorem findDataName_none {ls : List String}
    (h : ∀ l ∈ ls, matchDataLine l = none) : findDataName ls = none := by
  induction ls with
  | nil => rfl
  | cons a as ih =>
    have ha := h a (List.mem_cons_self a as)
    simp only [findDataName, ha]
    exact ih (fun l hl => h l (List.mem_cons_of_mem a hl))

/-- A non-empty repeated-record collection is emitted as its count line
(holding the collection's length) followed by the loop body. -/
theorem loopSec_decomp (nk h : String) (lo : LoopItem → String)
    (rs : List LoopItem) (hne : 0 < rs.length) :
    loopSec nk h lo rs =
      (nk ++ "\t" ++ toString rs.length ++ "\n") ++
      ("loop_\n" ++ h ++ strConcat (rs.map (fun r => lo r ++ "\n")) ++ "\n") := by
  unfold loopSec
  rw [if_pos hne]
  simp only [String.append_assoc]

/-- One unfolding step of the loop-preamble skip. -/
theorem skipLoopHeader_cons (l : String) (ls : List String) :
    skipLoopHeader (l :: ls) =
      if ¬ strStarts l "_mpif_" ∧ ¬ strStarts l "loop_" ∧ jsTrim l ≠ ""
      then l :: ls else skipLoopHeader ls := rfl

/-- The id cell of a parsed substrate item is the converted first column. -/
theorem cellAt_mkItem_id (values : List String) :
    cellAt (mkItem substrateFields values) "id"
      = convertCell "id" (values.getD 0 "") := rfl

/-- Reading the id cells of re-parsed substrate records whose serialized
first column is the rendered id cell gives the converted rendered ids. -/
theorem mapIds (xs : List LoopItem)
    (h : ∀ x ∈ xs, (jsSplit '\t' (substrateLine x)).getD 0 ""
      = renderCell (cellAt x "id")) :
    (xs.map (fun r => mkItem substrateFields
        (jsSplit '\t' (substrateLine r)))).map (fun it => cellAt it "id")
    = xs.map (fun r => convertCell "id" (renderCell (cellAt r "id"))) := by
  induction xs with
  | nil => rfl
  | cons x xs ih =>
    rw [List.map_cons, List.map_cons, List.map_cons]
    rw [cellAt_mkItem_id]
    rw [h x (List.mem_cons_self x xs)]
    rw [ih (fun y hy => h y (List.mem_cons_of_mem x hy))]

/-- The consumption loop over serialized substrate data lines, with the
declared count at least the number of lines, parses one item per line and
stops at the following blank line. -/
theorem consumeLoop_sub (rs : List LoopItem) (trailing : List String)
    (h : ∀ r ∈ rs, subLineOk r) :
    ∀ (p : Nat) (c : Int), (p : Int) + rs.length ≤ c →
      consumeLoop substrateFields (some c)
        (rs.map substrateLine ++ "" :: trailing) p
      = rs.map (fun r => mkItem substrateFields
          (jsSplit '\t' (substrateLine r))) := by
  induction rs with
  | nil =>
    intro p c _
    rw [List.map_nil, List.nil_append, consumeLoop]
    by_cases hu : underCount p (some c) = true
    · rw [if_neg (by simp [hu])]
      rw [if_pos (Or.inr (Or.inr rfl))]
      rfl
    · rw [if_pos (by simpa using hu)]
      rfl
  | cons r rs' ih =>
    intro p c hc
    obtain ⟨ha, hb, _, hd, _, hf, _⟩ := h r (List.mem_cons_self r rs')
    rw [List.map_cons, List.cons_append, consumeLoop]
    rw [if_neg (by
      simp only [underCount, decide_eq_true_eq, not_not]
      simp only [List.length_cons] at hc
      push_cast at hc ⊢
      omega)]
    rw [if_neg (by simp [ha, hb, hd])]
    rw [if_neg (by
      simp only [not_lt]
      exact hf)]
    rw [ih (fun x hx => h x (List.mem_cons_of_mem r hx)) (p + 1) c (by
      simp only [List.length_cons] at hc
      push_cast at hc ⊢
      omega)]
    rw [List.map_cons]

/-- Once the TGA scanning loop is armed, a run of well-rendering data lines
followed by a lone `;` contributes exactly those points. -/
theorem tgaLoop_data (rest : List (Int × Int)) (trailing : List String) :
    ∀ acc, (∀ q ∈ rest, tgaLineOk q) →
      tgaLoop (rest.map tgaCore ++ ";" :: trailing) true acc = acc ++ rest := by
  induction rest with
  | nil =>
    intro acc _
    rw [List.map_nil, List.nil_append, tgaLoop, if_pos ⟨rfl, rfl⟩,
      List.append_nil]
  | cons q qs ih =>
    intro acc h
    obtain ⟨hq1, hq2, hq3, hq4, hq5, hq6⟩ := h q (List.mem_cons_self q qs)
    rw [List.map_cons, List.cons_append, tgaLoop]
    rw [if_neg (by simp [hq3])]
    rw [if_neg (by simp [hq1, hq2])]
    rw [if_pos ⟨rfl, hq4, by simp [hq5]⟩]
    rw [hq6]
    rw [ih (acc ++ [q]) (fun x hx => h x (List.mem_cons_of_mem q hx))]
    simp

/-! ## Claims -/

/-- C1: round-trip stability fails on the code.  For the document decoded
from `tgaText` (a well-formed two-point TGA series), serializing and
re-parsing loses the first TGA point — the serializer omits the newline
after `_tga_weight_percent`, so the first data line is glued onto the
field-name line and discarded on re-parse — and the absent phone scalar
comes back as the literal placeholder `?`; the round-tripped document is
not structurally equal to the original. -/
theorem c1_roundtrip_fails :
    (parse tgaText).characterization.tga
      = some { data := [(30, 98), (40, 90)] } ∧
    (parse (stringify (parse tgaText))).characterization.tga
      = some { data := [(40, 90)] } ∧
    (parse tgaText).authorDetails.phone = some "" ∧
    (parse (stringify (parse tgaText))).authorDetails.phone = some "?" ∧
    parse (stringify (parse tgaText)) ≠ parse tgaText := by
  refine ⟨by decide, by decide, by decide, by decide, by decide⟩

/-- C2 (counterexample): an input with no `data_<name>` line does not raise
any decode error — the decoder is a total function and returns a complete
`Document` (every field defaulted, every collection empty). -/
theorem c2_counterexample :
    noDataLine "hello\nworld" ∧ parse "hello\nworld" = defaultDoc := by
  refine ⟨by decide, by decide⟩

/-- C2 (amended): the decoder has no hard failure; for every input in which
no line matches the `data_<name>` pattern, `parse` still returns a
`Document`, whose data-block name is the empty string. -/
theorem c2_no_header_defaults (t : String) (h : noDataLine t) :
    (parse t).metadata.dataName = "" := by
  show (findDataName (linesOf t)).getD "" = ""
  rw [findDataName_none h]
  rfl

/-- C2 witness: the amended theorem applied to a concrete header-less
input. -/
theorem c2_witness :
    noDataLine "hello\nworld" ∧
    (parse "hello\nworld").metadata.dataName = "" :=
  ⟨by decide, c2_no_header_defaults "hello\nworld" (by decide)⟩

/-- C3 (counterexample): substrate identifiers are not regenerated to
`R1..RN` by a serialize/parse round trip: the document decoded from
`subText` stores the identifiers `X9` and `Q2`, and they survive the round
trip unchanged. -/
theorem c3_counterexample :
    substrateIds (parse (stringify (parse subText)))
      ≠ [some (CellVal.str "R1"), some (CellVal.str "R2")] := by
  decide

/-- C3 (amended): the encoder never regenerates identifiers from position —
it emits each record's id cell by JS template interpolation, and the
decoder re-reads that first column through its cell conversion.  So for
every substrate collection whose serialized data lines are well-formed,
the round-tripped identifiers are, in collection order,
`convertCell ∘ renderCell` of the stored id cells: the stored identifier
string itself whenever it is present, trimmed and not a placeholder token,
and the literal string `undefined` for records whose id cell was absent —
never the positional `R1..RN`.  The last two conjuncts instance this at
the full parse/stringify pipeline on `subText`. -/
theorem c3_ids_verbatim :
    (∀ (rs : List LoopItem) (trailing : List String), rs ≠ [] →
      (∀ r ∈ rs, subLineOk r) →
      jsSplit '\t' (toString rs.length) = [toString rs.length] →
      parseIntM (toString rs.length) = some (rs.length : Int) →
      (parseLoopData (subSecLines rs trailing) "substrate"
        substrateFields).map (fun it => cellAt it "id")
        = rs.map (fun r => convertCell "id" (renderCell (cellAt r "id")))) ∧
    (∀ v : String, jsTrim v = v → v ≠ "?" → v ≠ "-" → v ≠ "" →
      convertCell "id" (renderCell (some (CellVal.str v)))
        = some (CellVal.str v)) ∧
    convertCell "id" (renderCell none) = some (CellVal.str "undefined") ∧
    substrateIds (parse subText)
      = [some (CellVal.str "X9"), some (CellVal.str "Q2")] ∧
    substrateIds (parse (stringify (parse subText)))
      = [some (CellVal.str "X9"), some (CellVal.str "Q2")] := by
  refine ⟨?_, ?_, by decide, by decide, by decide⟩
  · intro rs trailing hne hok hts hparse
    obtain ⟨r, rs', rfl⟩ := List.exists_cons_of_ne_nil hne
    have hev : extractValue (subSecLines (r :: rs') trailing)
        "_mpif_substrate_number" = some (toString (r :: rs').length) := by
      show ("_mpif_substrate_number" ::
        jsSplit '\t' (toString (r :: rs').length)).get? 1 = _
      rw [hts]
      rfl
    have hne' : toString (r :: rs').length ≠ "" := by
      intro h0
      rw [h0] at hparse
      exact Option.noConfusion hparse
    obtain ⟨ha, hb, hcc, hd, he, _, _⟩ := hok r (List.mem_cons_self r rs')
    simp only [parseLoopData]
    rw [show ("_mpif_" ++ "substrate" ++ "_number" : String)
        = "_mpif_substrate_number" from rfl]
    rw [show ("_mpif_" ++ "substrate" ++ "_id" : String)
        = "_mpif_substrate_id" from rfl]
    rw [hev]
    have hjsor : jsOr (some (toString (r :: rs').length)) "0"
        = toString (r :: rs').length := by
      simp only [jsOr]
      rw [if_neg hne']
    rw [hjsor]
    rw [hparse]
    rw [if_neg (by simp; omega)]
    show (consumeLoop substrateFields (some ((r :: rs').length : Int))
        (skipLoopHeader ("_mpif_substrate_name" ::
          "_mpif_substrate_molarity" :: "_mpif_substrate_molarity_unit" ::
          "_mpif_substrate_amount" :: "_mpif_substrate_amount_unit" ::
          "_mpif_substrate_supplier" :: "_mpif_substrate_purity_percent" ::
          "_mpif_substrate_cas" :: "_mpif_substrate_smiles" ::
          ((r :: rs').map substrateLine ++ "" :: trailing))) 0).map
        (fun it => cellAt it "id") = _
    have hskip : skipLoopHeader ("_mpif_substrate_name" ::
        "_mpif_substrate_molarity" :: "_mpif_substrate_molarity_unit" ::
        "_mpif_substrate_amount" :: "_mpif_substrate_amount_unit" ::
        "_mpif_substrate_supplier" :: "_mpif_substrate_purity_percent" ::
        "_mpif_substrate_cas" :: "_mpif_substrate_smiles" ::
        ((r :: rs').map substrateLine ++ "" :: trailing))
        = (r :: rs').map substrateLine ++ "" :: trailing := by
      rw [skipLoopHeader_cons, if_neg (by decide)]
      rw [skipLoopHeader_cons, if_neg (by decide)]
      rw [skipLoopHeader_cons, if_neg (by decide)]
      rw [skipLoopHeader_cons, if_neg (by decide)]
      rw [skipLoopHeader_cons, if_neg (by decide)]
      rw [skipLoopHeader_cons, if_neg (by decide)]
      rw [skipLoopHeader_cons, if_neg (by decide)]
      rw [skipLoopHeader_cons, if_neg (by decide)]
      rw [skipLoopHeader_cons, if_neg (by decide)]
      rw [List.map_cons, List.cons_append]
      rw [skipLoopHeader_cons]
      rw [if_pos ⟨by simp [ha], by simp [hcc], he⟩]
    rw [hskip]
    rw [consumeLoop_sub (r :: rs') trailing hok 0 ((r :: rs').length : Int)
      (by push_cast; omega)]
    exact mapIds (r :: rs') (fun x hx => (hok x hx).2.2.2.2.2.2)
  · intro v h0 h1 h2 h3
    show convertCell "id" v = _
    simp only [convertCell]
    rw [if_neg (by decide)]
    rw [h0]
    rw [if_neg (by simp [h1, h2, h3])]

/-- C3 witness: the round-trip statement applied to a concrete collection
holding one record with stored id `X9` and one record with an absent id,
and the verbatim-preservation statement applied to `X9`. -/
theorem c3_witness :
    (([subItemX9, subItemNoId] : List LoopItem) ≠ [] ∧
     (∀ r ∈ [subItemX9, subItemNoId], subLineOk r) ∧
     jsSplit '\t' (toString ([subItemX9, subItemNoId] : List LoopItem).length)
       = [toString ([subItemX9, subItemNoId] : List LoopItem).length] ∧
     parseIntM (toString ([subItemX9, subItemNoId] : List LoopItem).length)
       = some (([subItemX9, subItemNoId] : List LoopItem).length : Int) ∧
     jsTrim "X9" = "X9" ∧ "X9" ≠ "?" ∧ "X9" ≠ "-" ∧ ("X9" : String) ≠ "") ∧
    (parseLoopData (subSecLines [subItemX9, subItemNoId] []) "substrate"
        substrateFields).map (fun it => cellAt it "id")
      = [some (CellVal.str "X9"), some (CellVal.str "undefined")] ∧
    convertCell "id" (renderCell (some (CellVal.str "X9")))
      = some (CellVal.str "X9") :=
  ⟨⟨by decide, by decide, by decide, by decide, by decide, by decide,
    by decide, by decide⟩,
   (c3_ids_verbatim.1 [subItemX9, subItemNoId] [] (by decide) (by decide)
     (by decide) (by decide)).trans (by decide),
   c3_ids_verbatim.2.1 "X9" (by decide) (by decide) (by decide) (by decide)⟩

/-- C4 (counterexample): a scalar written as `?` decodes to the literal
string `?`, not to the absent representation. -/
theorem c4_counterexample :
    (parse "data_T\n_mpif_product_cas\t?").productInfo.casNumber
      = some "?" := by
  decide

/-- C4 (amended): at the scalar level `extractValue` returns the raw token,
so `?` decodes to the literal `?` and `''` to the literal two-quote string
(the empty string after quote stripping, as for the CCDC field) — the two
representations are distinct, and a quote-stripped field distinguishes
`''` (present, empty) from a missing line (absent); only inside loop-record
string cells does `?` decode to absent, where `-` and the empty cell do so
as well, while `''` stays a literal. -/
theorem c4_placeholder_literal :
    extractValue ["_mpif_product_cas\t?"] "_mpif_product_cas" = some "?" ∧
    extractValue ["_mpif_product_cas\t''"] "_mpif_product_cas" = some "''" ∧
    (parse "data_T\n_mpif_product_ccdc\t''").productInfo.ccdcNumber
      = some "" ∧
    (parse "data_T").productInfo.ccdcNumber = none ∧
    convertCell "smiles" "?" = none ∧
    convertCell "smiles" "-" = none ∧
    convertCell "smiles" "" = none ∧
    convertCell "smiles" "''" = some (CellVal.str "''") := by
  refine ⟨by decide, by decide, by decide, by decide, by decide, by decide,
    by decide, by decide⟩

/-- C5: loop truncation.  For a substrate loop declaring three records but
followed by only two well-formed tab-delimited data lines and then a stop
line (blank, comment, or new `_mpif_` key line), the decoder parses exactly
two records, whatever else follows; no error is possible since the decoder
is total. -/
theorem c5_loop_truncation (d1 d2 term : String) (rest : List String)
    (h1 : goodDataLine d1) (h2 : goodDataLine d2) (ht : stopLine term) :
    (parseLoopData (c5Lines d1 d2 term rest) "substrate"
      substrateFields).length = 2 := by
  obtain ⟨h1a, h1b, h1c, h1d, h1e, h1f⟩ := h1
  obtain ⟨h2a, h2b, h2c, h2d, h2e, h2f⟩ := h2
  show (consumeLoop substrateFields (some 3)
      (skipLoopHeader (d1 :: d2 :: term :: rest)) 0).length = 2
  have hskip : skipLoopHeader (d1 :: d2 :: term :: rest)
      = d1 :: d2 :: term :: rest := by
    rw [skipLoopHeader]
    rw [if_pos ⟨by simp [h1a], by simp [h1b], h1e⟩]
  rw [hskip]
  rw [consumeLoop]
  rw [if_neg (by decide)]
  rw [if_neg (by simp [h1a, h1c, h1d])]
  rw [if_neg (by simp [show substrateFields.length = 10 from rfl]; omega)]
  rw [consumeLoop]
  rw [if_neg (by decide)]
  rw [if_neg (by simp [h2a, h2c, h2d])]
  rw [if_neg (by simp [show substrateFields.length = 10 from rfl]; omega)]
  rw [consumeLoop]
  rw [if_neg (by decide)]
  rw [if_pos ?stop]
  case stop =>
    rcases ht with h | h | h
    · right; right; exact h
    · right; left; exact h
    · left; exact h
  rfl

/-- C5 witness: the truncation theorem applied to two concrete data lines
followed by a blank line. -/
theorem c5_witness :
    goodDataLine "R1\ta\t\t\t5\tmg\t\t\t\t?" ∧
    goodDataLine "R2\tb\t\t\t1\tmL\t\t\t\t?" ∧ stopLine "" ∧
    (parseLoopData
      (c5Lines "R1\ta\t\t\t5\tmg\t\t\t\t?" "R2\tb\t\t\t1\tmL\t\t\t\t?" ""
        ["_mpif_solvent_number\t0"])
      "substrate" substrateFields).length = 2 :=
  ⟨by decide, by decide, by decide,
    c5_loop_truncation _ _ _ _ (by decide) (by decide) (by decide)⟩

/-- C6: count derivation.  For every document and every record appended to
any of the five repeated-record collections, the serializer's output
contains the collection's `_..._number` line carrying the new actual
length of the collection (the model, like the source's `Document`, stores
no separate count — the emitted value is the collection's length). -/
theorem c6_count_derivation :
    (∀ (d : MPIFData) (rs : List LoopItem) (r : LoopItem),
      ∃ pre post, stringify (withSubstrates d (rs ++ [r])) =
        pre ++ ("_mpif_substrate_number" ++ "\t" ++ toString (rs.length + 1)
          ++ "\n") ++ post) ∧
    (∀ (d : MPIFData) (rs : List LoopItem) (r : LoopItem),
      ∃ pre post, stringify (withSolvents d (rs ++ [r])) =
        pre ++ ("_mpif_solvent_number" ++ "\t" ++ toString (rs.length + 1)
          ++ "\n") ++ post) ∧
    (∀ (d : MPIFData) (rs : List LoopItem) (r : LoopItem),
      ∃ pre post, stringify (withVessels d (rs ++ [r])) =
        pre ++ ("_mpif_vessel_number" ++ "\t" ++ toString (rs.length + 1)
          ++ "\n") ++ post) ∧
    (∀ (d : MPIFData) (rs : List LoopItem) (r : LoopItem),
      ∃ pre post, stringify (withHardware d (rs ++ [r])) =
        pre ++ ("_mpif_hardware_number" ++ "\t" ++ toString (rs.length + 1)
          ++ "\n") ++ post) ∧
    (∀ (d : MPIFData) (rs : List LoopItem) (r : LoopItem),
      ∃ pre post, stringify (withSteps d (rs ++ [r])) =
        pre ++ ("_mpif_procedure_number" ++ "\t" ++ toString (rs.length + 1)
          ++ "\n") ++ post) := by
  refine ⟨fun d rs r => ?_, fun d rs r => ?_, fun d rs r => ?_,
    fun d rs r => ?_, fun d rs r => ?_⟩
  · have key : stringify (withSubstrates d (rs ++ [r])) =
        (headerSec (withSubstrates d (rs ++ [r])) ++
          authorSec (withSubstrates d (rs ++ [r])) ++
          productSec (withSubstrates d (rs ++ [r])) ++
          synthGeneralSec (withSubstrates d (rs ++ [r])) ++
          "#Section 4: Synthesis Procedure Details\n") ++
        ("_mpif_substrate_number" ++ "\t" ++ toString (rs.length + 1)
          ++ "\n") ++
        (("loop_\n" ++ substrateHeader ++
           strConcat ((rs ++ [r]).map (fun x => substrateLine x ++ "\n"))
           ++ "\n") ++
         loopSec "_mpif_solvent_number" solventHeader substrateLine
           (withSubstrates d (rs ++ [r])).synthesisDetails.solvents ++
         loopSec "_mpif_vessel_number" vesselHeader vesselLine
           (withSubstrates d (rs ++ [r])).synthesisDetails.vessels ++
         loopSec "_mpif_hardware_number" hardwareHeader hardwareLine
           (withSubstrates d (rs ++ [r])).synthesisDetails.hardware ++
         loopSec "_mpif_procedure_number" stepHeader stepLine
           (withSubstrates d (rs ++ [r])).synthesisDetails.steps ++
         procFullSec (withSubstrates d (rs ++ [r])).synthesisDetails.procedureFull
           ++
         charSec (withSubstrates d (rs ++ [r]))) := by
      unfold stringify synthDetailsSec
      rw [show (withSubstrates d (rs ++ [r])).synthesisDetails.substrates
          = rs ++ [r] from rfl]
      rw [loopSec_decomp _ _ _ _ (by simp)]
      rw [show (rs ++ [r]).length = rs.length + 1 by simp]
      simp only [String.append_assoc]
    exact ⟨_, _, key⟩
  · have key : stringify (withSolvents d (rs ++ [r])) =
        (headerSec (withSolvents d (rs ++ [r])) ++
          authorSec (withSolvents d (rs ++ [r])) ++
          productSec (withSolvents d (rs ++ [r])) ++
          synthGeneralSec (withSolvents d (rs ++ [r])) ++
          "#Section 4: Synthesis Procedure Details\n" ++
          loopSec "_mpif_substrate_number" substrateHeader substrateLine
            (withSolvents d (rs ++ [r])).synthesisDetails.substrates) ++
        ("_mpif_solvent_number" ++ "\t" ++ toString (rs.length + 1)
          ++ "\n") ++
        (("loop_\n" ++ solventHeader ++
           strConcat ((rs ++ [r]).map (fun x => substrateLine x ++ "\n"))
           ++ "\n") ++
         loopSec "_mpif_vessel_number" vesselHeader vesselLine
           (withSolvents d (rs ++ [r])).synthesisDetails.vessels ++
         loopSec "_mpif_hardware_number" hardwareHeader hardwareLine
           (withSolvents d (rs ++ [r])).synthesisDetails.hardware ++
         loopSec "_mpif_procedure_number" stepHeader stepLine
           (withSolvents d (rs ++ [r])).synthesisDetails.steps ++
         procFullSec (withSolvents d (rs ++ [r])).synthesisDetails.procedureFull
           ++
         charSec (withSolvents d (rs ++ [r]))) := by
      unfold stringify synthDetailsSec
      rw [show (withSolvents d (rs ++ [r])).synthesisDetails.solvents
          = rs ++ [r] from rfl]
      rw [loopSec_decomp "_mpif_solvent_number" _ _ _ (by simp)]
      rw [show (rs ++ [r]).length = rs.length + 1 by simp]
      simp only [String.append_assoc]
    exact ⟨_, _, key⟩
  · have key : stringify (withVessels d (rs ++ [r])) =
        (headerSec (withVessels d (rs ++ [r])) ++
          authorSec (withVessels d (rs ++ [r])) ++
          productSec (withVessels d (rs ++ [r])) ++
          synthGeneralSec (withVessels d (rs ++ [r])) ++
          "#Section 4: Synthesis Procedure Details\n" ++
          loopSec "_mpif_substrate_number" substrateHeader substrateLine
            (withVessels d (rs ++ [r])).synthesisDetails.substrates ++
          loopSec "_mpif_solvent_number" solventHeader substrateLine
            (withVessels d (rs ++ [r])).synthesisDetails.solvents) ++
        ("_mpif_vessel_number" ++ "\t" ++ toString (rs.length + 1)
          ++ "\n") ++
        (("loop_\n" ++ vesselHeader ++
           strConcat ((rs ++ [r]).map (fun x => vesselLine x ++ "\n"))
           ++ "\n") ++
         loopSec "_mpif_hardware_number" hardwareHeader hardwareLine
           (withVessels d (rs ++ [r])).synthesisDetails.hardware ++
         loopSec "_mpif_procedure_number" stepHeader stepLine
           (withVessels d (rs ++ [r])).synthesisDetails.steps ++
         procFullSec (withVessels d (rs ++ [r])).synthesisDetails.procedureFull
           ++
         charSec (withVessels d (rs ++ [r]))) := by
      unfold stringify synthDetailsSec
      rw [show (withVessels d (rs ++ [r])).synthesisDetails.vessels
          = rs ++ [r] from rfl]
      rw [loopSec_decomp "_mpif_vessel_number" _ _ _ (by simp)]
      rw [show (rs ++ [r]).length = rs.length + 1 by simp]
      simp only [String.append_assoc]
    exact ⟨_, _, key⟩
  · have key : stringify (withHardware d (rs ++ [r])) =
        (headerSec (withHardware d (rs ++ [r])) ++
          authorSec (withHardware d (rs ++ [r])) ++
          productSec (withHardware d (rs ++ [r])) ++
          synthGeneralSec (withHardware d (rs ++ [r])) ++
          "#Section 4: Synthesis Procedure Details\n" ++
          loopSec "_mpif_substrate_number" substrateHeader substrateLine
            (withHardware d (rs ++ [r])).synthesisDetails.substrates ++
          loopSec "_mpif_solvent_number" solventHeader substrateLine
            (withHardware d (rs ++ [r])).synthesisDetails.solvents ++
          loopSec "_mpif_vessel_number" vesselHeader vesselLine
            (withHardware d (rs ++ [r])).synthesisDetails.vessels) ++
        ("_mpif_hardware_number" ++ "\t" ++ toString (rs.length + 1)
          ++ "\n") ++
        (("loop_\n" ++ hardwareHeader ++
           strConcat ((rs ++ [r]).map (fun x => hardwareLine x ++ "\n"))
           ++ "\n") ++
         loopSec "_mpif_procedure_number" stepHeader stepLine
           (withHardware d (rs ++ [r])).synthesisDetails.steps ++
         procFullSec (withHardware d (rs ++ [r])).synthesisDetails.procedureFull
           ++
         charSec (withHardware d (rs ++ [r]))) := by
      unfold stringify synthDetailsSec
      rw [show (withHardware d (rs ++ [r])).synthesisDetails.hardware
          = rs ++ [r] from rfl]
      rw [loopSec_decomp "_mpif_hardware_number" _ _ _ (by simp)]
      rw [show (rs ++ [r]).length = rs.length + 1 by simp]
      simp only [String.append_assoc]
    exact ⟨_, _, key⟩
  · have key : stringify (withSteps d (rs ++ [r])) =
        (headerSec (withSteps d (rs ++ [r])) ++
          authorSec (withSteps d (rs ++ [r])) ++
          productSec (withSteps d (rs ++ [r])) ++
          synthGeneralSec (withSteps d (rs ++ [r])) ++
          "#Section 4: Synthesis Procedure Details\n" ++
          loopSec "_mpif_substrate_number" substrateHeader substrateLine
            (withSteps d (rs ++ [r])).synthesisDetails.substrates ++
          loopSec "_mpif_solvent_number" solventHeader substrateLine
            (withSteps d (rs ++ [r])).synthesisDetails.solvents ++
          loopSec "_mpif_vessel_number" vesselHeader vesselLine
            (withSteps d (rs ++ [r])).synthesisDetails.vessels ++
          loopSec "_mpif_hardware_number" hardwareHeader hardwareLine
            (withSteps d (rs ++ [r])).synthesisDetails.hardware) ++
        ("_mpif_procedure_number" ++ "\t" ++ toString (rs.length + 1)
          ++ "\n") ++
        (("loop_\n" ++ stepHeader ++
           strConcat ((rs ++ [r]).map (fun x => stepLine x ++ "\n"))
           ++ "\n") ++
         procFullSec (withSteps d (rs ++ [r])).synthesisDetails.procedureFull
           ++
         charSec (withSteps d (rs ++ [r]))) := by
      unfold stringify synthDetailsSec
      rw [show (withSteps d (rs ++ [r])).synthesisDetails.steps
          = rs ++ [r] from rfl]
      rw [loopSec_decomp "_mpif_procedure_number" _ _ _ (by simp)]
      rw [show (rs ++ [r]).length = rs.length + 1 by simp]
      simp only [String.append_assoc]
    exact ⟨_, _, key⟩

/-- C7 (counterexample): line-level leading/trailing whitespace inside a
`;`-delimited block is altered: `parse` trims every line at ingestion, so
the content line with surrounding spaces in `indentText` comes back
trimmed, not as written. -/
theorem c7_counterexample :
    (parse indentText).productInfo.handlingNote
      ≠ some "  Line one  \nLine two" ∧
    (parse indentText).productInfo.handlingNote
      = some "Line one\nLine two" := by
  refine ⟨by decide, by decide⟩

/-- C7 (amended): the decoder copies the already line-trimmed content lines
into the block joined by newlines — interior blank lines and line
boundaries are preserved exactly — and then trims the joined text, so
leading/trailing blank lines disappear; per-line interior
leading/trailing whitespace was already removed by ingestion trimming. -/
theorem c7_block_content :
    (∀ (l1 l2 : String) (junk : List String), l1 ≠ ";" → l1 ≠ "" → l2 ≠ ";" →
      extractTextBlock (tbLines l1 l2 junk) "_mpif_procedure_full" =
        (if jsTrim (l1 ++ "\n" ++ "\n" ++ l2) = "" then none
         else some (jsTrim (l1 ++ "\n" ++ "\n" ++ l2)))) ∧
    (parse blankPadText).productInfo.handlingNote
      = some "Line one\n\nLine two" := by
  refine ⟨?_, by decide⟩
  intro l1 l2 junk h1 h1e h2
  show (if jsTrim (tbIn (l1 :: "" :: l2 :: ";" :: junk) "") = "" then none
    else some (jsTrim (tbIn (l1 :: "" :: l2 :: ";" :: junk) ""))) = _
  have step : tbIn (l1 :: "" :: l2 :: ";" :: junk) ""
      = l1 ++ "\n" ++ "\n" ++ l2 := by
    rw [tbIn, if_neg h1, if_pos rfl]
    rw [show ("" : String) ++ l1 = l1 from rfl]
    rw [tbIn, if_neg (by decide), if_neg h1e]
    rw [tbIn, if_neg h2]
    rw [if_neg (by
      intro hcontra
      have := congrArg String.data hcontra
      simp at this)]
    rw [show (l1 ++ "\n" ++ "" : String) ++ "\n" ++ l2
        = l1 ++ "\n" ++ "\n" ++ l2 by
      rw [String.append_empty]]
    rw [tbIn, if_pos rfl]
  rw [step]

/-- C7 witness: the block-content theorem applied to the concrete lines
`Line one` and `Line two`. -/
theorem c7_witness :
    ("Line one" ≠ ";" ∧ ("Line one" : String) ≠ "" ∧ "Line two" ≠ ";") ∧
    extractTextBlock (tbLines "Line one" "Line two" [])
        "_mpif_procedure_full" =
      (if jsTrim ("Line one" ++ "\n" ++ "\n" ++ "Line two") = "" then none
       else some (jsTrim ("Line one" ++ "\n" ++ "\n" ++ "Line two"))) :=
  ⟨by decide, c7_block_content.1 "Line one" "Line two" []
    (by decide) (by decide) (by decide)⟩

/-- C8 (counterexample): a locally malformed construct is not always
resolved by leaving the affected field absent: when the opening `;` of the
handling-note block is never closed, the decoder absorbs all remaining
lines — including the following key line — into the field instead of
leaving it absent. -/
theorem c8_counterexample :
    (parse unmatchedText).productInfo.handlingNote
      = some "abc\n_mpif_product_color\t'red'" := by
  decide

/-- C8 (amended): no local anomaly is fatal (the decoder is a total
function): a malformed (short) loop data line is skipped while parsing
continues, an unmatched text-block delimiter leaves the field present but
overfull (and later scalars are still parsed), an unknown enum value is
stored as its raw string, and a missing optional field is left absent. -/
theorem c8_local_anomalies :
    (parse malformedLoopText).synthesisDetails.substrates.length = 1 ∧
    (parse unmatchedText).productInfo.handlingNote ≠ none ∧
    (parse unmatchedText).productInfo.color = "red" ∧
    (parse "data_T\n_mpif_product_state\t'plasma'").productInfo.state
      = "plasma" ∧
    (parse "data_T").productInfo.handlingNote = none ∧
    (parse "data_T").productInfo.casNumber = none := by
  refine ⟨by decide, by decide, by decide, by decide, by decide, by decide⟩

/-- C9: the serializer never emits adsorption or desorption lines — its
output does not depend on those fields at all — so a document holding the
adsorption and desorption series decoded from `adsText` loses both on a
serialize/parse round trip, even though the decoder read them. -/
theorem c9_adsorption_dropped :
    (∀ (d : MPIFData) (a : Option AdsorptionData) (b : Option DesorptionData),
      stringify (withAds d a b) = stringify d) ∧
    (parse adsText).characterization.adsorption =
      some { experimentalTemperature := some 77, experimentalMethod := none
             sampleMass := none, sampleId := none, materialId := none
             sampleInfo := none
             units := { temperature := none, pressure := none, mass := none,
                        loading := none }
             data := [(1, 100, 5), (2, 100, 7)] } ∧
    (parse adsText).characterization.desorption
      = some { data := [(2, 100, 7)] } ∧
    (parse (stringify (parse adsText))).characterization.adsorption = none ∧
    (parse (stringify (parse adsText))).characterization.desorption = none := by
  refine ⟨fun d a b => rfl, by decide, by decide, by decide, by decide⟩

/-- C10: the serializer writes the first TGA data point on the same line as
the `_tga_weight_percent` field-name header (no newline between them); the
decoder's TGA loop classifies that glued line as a field-name line and
discards its point, and keeps the remaining well-rendering data lines, so a
TGA series of n points comes back as its last n-1 points — and an
n = 1 series disappears entirely, as the two concrete serialize/parse
round trips show. -/
theorem c10_tga_first_point_lost :
    (∀ (d : MPIFData) (pt : Int × Int) (rest : List (Int × Int)),
      d.characterization.tga = some { data := pt :: rest } →
      ∃ pre post, stringify d =
        pre ++ ("_tga_weight_percent" ++ tgaCore pt ++ "\n") ++ post) ∧
    (∀ (pt : Int × Int) (rest : List (Int × Int)) (trailing : List String),
      tgaMergeOk pt → (∀ q ∈ rest, tgaLineOk q) →
      tgaLoop (tgaSecLines pt rest trailing) false [] = rest) ∧
    (parse (stringify (withTGA [(30, 98), (40, 90)]))).characterization.tga
      = some { data := [(40, 90)] } ∧
    (parse (stringify (withTGA [(30, 98)]))).characterization.tga = none := by
  refine ⟨fun d pt rest h => ?_, fun pt rest trailing hm h => ?_,
    by decide, by decide⟩
  · have key : stringify d =
        (headerSec d ++ authorSec d ++ productSec d ++ synthGeneralSec d ++
          synthDetailsSec d ++
          ("#Characterization Information\n\n" ++
            pxrdSec d.characterization.pxrd ++
            "_mpif_tga_data\n;\nloop_\n_tga_temperature_celcius\n")) ++
        ("_tga_weight_percent" ++ tgaCore pt ++ "\n") ++
        (strConcat (rest.map tgaPointLine) ++ ";\n\n" ++
          aifSec d.characterization.aif) := by
      unfold stringify charSec
      simp only [h, Option.isSome_some, tgaSec, List.map_cons, strConcat]
      rw [if_pos (by simp)]
      rw [show
        ("_mpif_tga_data\n;\nloop_\n_tga_temperature_celcius\n_tga_weight_percent"
          : String)
        = "_mpif_tga_data\n;\nloop_\n_tga_temperature_celcius\n"
          ++ "_tga_weight_percent" from rfl]
      rw [show tgaPointLine pt = tgaCore pt ++ "\n" from rfl]
      simp only [String.append_assoc]
    exact ⟨_, _, key⟩
  · obtain ⟨hm1, hm2⟩ := hm
    unfold tgaSecLines
    rw [tgaLoop, if_neg (by decide), if_neg (by decide), if_neg (by decide),
      if_neg (by decide)]
    rw [tgaLoop, if_neg (by decide), if_neg (by decide), if_neg (by decide),
      if_neg (by decide)]
    rw [tgaLoop, if_neg (by decide), if_pos (by decide)]
    rw [tgaLoop]
    rw [if_neg (by simp [hm1])]
    rw [if_pos (Or.inr hm2)]
    exact tgaLoop_data rest trailing [] h

/-- C10 witness: the emission and scanning statements applied to the
concrete two-point series (30, 98), (40, 90). -/
theorem c10_witness :
    ((withTGA [(30, 98), (40, 90)]).characterization.tga
      = some { data := [(30, 98), (40, 90)] } ∧
     tgaMergeOk (30, 98) ∧ (∀ q ∈ [((40 : Int), (90 : Int))], tgaLineOk q)) ∧
    (∃ pre post, stringify (withTGA [(30, 98), (40, 90)]) =
      pre ++ ("_tga_weight_percent" ++ tgaCore (30, 98) ++ "\n") ++ post) ∧
    tgaLoop (tgaSecLines (30, 98) [(40, 90)] []) false [] = [(40, 90)] :=
  ⟨⟨by decide, by decide, by decide⟩,
    c10_tga_first_point_lost.1 (withTGA [(30, 98), (40, 90)]) (30, 98)
      [(40, 90)] (by decide),
    c10_tga_first_point_lost.2.1 (30, 98) [(40, 90)] [] (by decide)
      (by decide)⟩

end MPIF
